import Mathlib

/-! RAJA: CUDA kernel statement executors, team launch and register-matrix indices

A shallow embedding of

* `include/RAJA/policy/cuda/kernel/For.hpp` (the `For` / `ForICount` statement
  executors for the direct-mapped, block-stride, grid-stride and sequential
  policies, with their `calculateDimensions`),
* `include/RAJA/pattern/teams/teams_core.hpp` (`Teams`, `Threads`, `Lanes`,
  `Resources`, `LaunchContext`, `launch`, `PrivateMemoryImpl`),
* `include/RAJA/pattern/vector/RegisterMatrix.hpp` (`toColIndex`, `toRowIndex`).

Conventions.  Stateful code is written in state-passing style: an executor takes
the execution context `data` and returns the context it leaves behind.  The
enclosed statement list of a `For` is a parameter `enclosed_stmts`, a function
on contexts.  Machine integers are `Nat` and `Int` with the wrap-around
written out: `to_int` narrows a value to the 32-bit `int` (as in `int len =
segment_length(...)`), `to_unsigned` converts to the 32-bit `unsigned int` (as
the comparison of an unsigned index with an `int` does), and the index of a
stride loop is advanced modulo `2^32`.  A stride loop is not total (an extent
of `0` spins, and so may an index that wraps), so it carries fuel and answers
`none` when the fuel is used up before the loop condition fails.
-/

namespace RAJA

/-! ## Execution context -/

/-- Modelled from the spec: the `LoopData` execution context, declared in
`RAJA/policy/cuda/kernel/internal.hpp` which is not among the sources.  It holds
the segment tuple, the mutable offset tuple (current index per `ArgumentId`),
the mutable param tuple (auxiliary slot per `ParamId`) and the loop bodies; the
bodies are lambdas that capture the memory they act on, which is the field
`bodies` of type `σ`.  Tuple positions are compile-time constants in the
source, an id outside the tuple does not compile, so the tuples are total maps
from ids. -/
structure LoopData (σ : Type) where
  segment_tuple : Nat → List Int
  offset_tuple : Nat → Nat
  param_tuple : Nat → Nat
  bodies : σ

/-- Modelled from the spec: `segment_length<ArgumentId>(data)`, the number of
indices of the segment bound to `ArgumentId`. -/
def segment_length {σ : Type} (ArgumentId : Nat) (data : LoopData σ) : Nat :=
  (data.segment_tuple ArgumentId).length

/-- Modelled from the spec: `data.assign_offset<ArgumentId>(i)` records `i` as
the current index of `ArgumentId` and touches nothing else. -/
def assign_offset {σ : Type} (ArgumentId : Nat) (i : Nat) (data : LoopData σ) :
    LoopData σ :=
  { data with offset_tuple := Function.update data.offset_tuple ArgumentId i }

/-- Modelled from the spec: `data.assign_param<ParamId>(i)` writes `i` into the
named param slot and touches nothing else. -/
def assign_param {σ : Type} (ParamId : Nat) (i : Nat) (data : LoopData σ) :
    LoopData σ :=
  { data with param_tuple := Function.update data.param_tuple ParamId i }

/-! ## Machine integers -/

/-- Conversion of an integer value to the 32-bit `int`: the value modulo `2^32`
in the range `[-2^31, 2^31)`. -/
def to_int (z : Int) : Int := (z + 2147483648) % 4294967296 - 2147483648

/-- Conversion of an integer value to the 32-bit `unsigned int`: the value
modulo `2^32` in the range `[0, 2^32)`. -/
def to_unsigned (z : Int) : Nat := (z % 4294967296).toNat

/-! ## CUDA dimensions and launch dimensions -/

/-- Modelled from the spec: `cuda_dim_t` (CUDA `dim3`), one 32-bit unsigned
extent or index per hardware dimension x, y, z. -/
structure cuda_dim_t where
  x : Nat
  y : Nat
  z : Nat
deriving DecidableEq, Repr

/-- Modelled from the spec: `get_cuda_dim<dim>(d)` reads the component of `d`
along dimension `dim` (0 is x, 1 is y, 2 is z). -/
def get_cuda_dim (dim : Fin 3) (d : cuda_dim_t) : Nat :=
  match dim with
  | 0 => d.x
  | 1 => d.y
  | 2 => d.z

/-- Modelled from the spec: `set_cuda_dim<dim>(d, value)` overwrites the
component of `d` along dimension `dim` and leaves the other two. -/
def set_cuda_dim (dim : Fin 3) (d : cuda_dim_t) (value : Nat) : cuda_dim_t :=
  match dim with
  | 0 => { d with x := value }
  | 1 => { d with y := value }
  | 2 => { d with z := value }

/-- Modelled from the spec: `LaunchDims`, the resource requirement record:
blocks needed, threads needed and minimum threads, per dimension. -/
structure LaunchDims where
  blocks : cuda_dim_t
  threads : cuda_dim_t
  min_threads : cuda_dim_t
deriving DecidableEq, Repr

/-- Pointwise maximum of two `cuda_dim_t`. -/
def cuda_dim_t.max (a c : cuda_dim_t) : cuda_dim_t :=
  { x := Nat.max c.x a.x, y := Nat.max c.y a.y, z := Nat.max c.z a.z }

/-- Modelled from the spec: `LaunchDims::max`, the combination rule: pointwise
maximum across all dimensions of all three components. -/
def LaunchDims.max (a c : LaunchDims) : LaunchDims :=
  { blocks := a.blocks.max c.blocks,
    threads := a.threads.max c.threads,
    min_threads := a.min_threads.max c.min_threads }

/-- The CUDA built-in registers a device thread reads: `threadIdx`, `blockIdx`,
`blockDim`, `gridDim`. -/
structure CudaRegs where
  threadIdx : cuda_dim_t
  blockIdx : cuda_dim_t
  blockDim : cuda_dim_t
  gridDim : cuda_dim_t
deriving DecidableEq, Repr

namespace internal

/-! ## Loops of `For.hpp` -/

/-- The sequential loop `for (; i < len; ++i) body(i)` entered at `i`; every
round brings `i` closer to `len`, so the loop is total. -/
def seq_loop {D : Type} (body : Nat → D → D) (len : Nat) (i : Nat) (data : D) : D :=
  if i < len then seq_loop body len (i + 1) (body i data) else data
termination_by len - i

/-- The stride loop `for (auto i = i0; i < len; i += i_stride) body(i)` with
`int len` and `i`, `i_stride` of type `unsigned int`: the comparison converts
`len` to `unsigned int`, and `i += i_stride` is taken modulo `2^32`.  Each
evaluation of the loop condition costs one unit of fuel; `none` means the fuel
ran out before the condition failed. -/
def stride_loop {D : Type} (body : Nat → D → D) (len : Int) (i_stride : Nat) :
    Nat → Nat → D → Option D
  | 0, _, _ => none
  | fuel + 1, i, data =>
    if i < to_unsigned len then
      stride_loop body len i_stride fuel ((i + i_stride) % 4294967296) (body i data)
    else some data

/-! ## Direct-mapped thread policy `cuda_thread_xyz_direct<ThreadDim>` -/

/-- Executor `exec` of `For<ArgumentId, cuda_thread_xyz_direct<ThreadDim>, ...>`. -/
def For_cuda_thread_xyz_direct.exec {σ : Type}
    (enclosed_stmts : LoopData σ → LoopData σ) (ArgumentId : Nat) (ThreadDim : Fin 3)
    (regs : CudaRegs) (data : LoopData σ) : LoopData σ :=
  let len := segment_length ArgumentId data
  let i := get_cuda_dim ThreadDim regs.threadIdx
  -- assign thread id directly to offset
  let data := assign_offset ArgumentId i data
  -- execute enclosed statements if in bounds
  if i < len then enclosed_stmts data else data

/-- The local `dims` of the direct-mapped `calculateDimensions` before it is
combined with the enclosed statements: a default `LaunchDims` (`dflt`) with
`threads` and `min_threads` along `ThreadDim` set to the `int len`, converted
to the unsigned component type. -/
def For_cuda_thread_xyz_direct.dims (dflt : LaunchDims) (ThreadDim : Fin 3)
    (len : Int) : LaunchDims :=
  let dims := dflt
  -- request one thread per element in the segment
  let dims := { dims with threads := set_cuda_dim ThreadDim dims.threads (to_unsigned len) }
  -- since we are direct-mapping, we REQUIRE len
  { dims with min_threads := set_cuda_dim ThreadDim dims.min_threads (to_unsigned len) }

/-- Function `calculateDimensions` of
`For<ArgumentId, cuda_thread_xyz_direct<ThreadDim>, ...>`; `dflt` is the value
of a default-constructed `LaunchDims`. -/
def For_cuda_thread_xyz_direct.calculateDimensions {σ : Type} (dflt : LaunchDims)
    (enclosed_calculateDimensions : LoopData σ → LaunchDims) (ArgumentId : Nat)
    (ThreadDim : Fin 3) (data : LoopData σ) : LaunchDims :=
  let len : Int := to_int (segment_length ArgumentId data)
  let dims := For_cuda_thread_xyz_direct.dims dflt ThreadDim len
  -- combine with enclosed statements
  let enclosed_dims := enclosed_calculateDimensions data
  dims.max enclosed_dims

/-- Executor `exec` of
`ForICount<ArgumentId, ParamId, cuda_thread_xyz_direct<ThreadDim>, ...>`. -/
def ForICount_cuda_thread_xyz_direct.exec {σ : Type}
    (enclosed_stmts : LoopData σ → LoopData σ) (ArgumentId ParamId : Nat)
    (ThreadDim : Fin 3) (regs : CudaRegs) (data : LoopData σ) : LoopData σ :=
  let len := segment_length ArgumentId data
  let i := get_cuda_dim ThreadDim regs.threadIdx
  -- assign thread id directly to offset
  let data := assign_offset ArgumentId i data
  let data := assign_param ParamId i data
  -- execute enclosed statements if in bounds
  if i < len then enclosed_stmts data else data

/-! ## Block-stride thread policy `cuda_thread_xyz_loop<ThreadDim, MinThreads>` -/

/-- Executor `exec` of
`For<ArgumentId, cuda_thread_xyz_loop<ThreadDim, MinThreads>, ...>`: a
block-stride loop from `threadIdx` in steps of `blockDim`. -/
def For_cuda_thread_xyz_loop.exec {σ : Type}
    (enclosed_stmts : LoopData σ → LoopData σ) (ArgumentId : Nat) (ThreadDim : Fin 3)
    (regs : CudaRegs) (fuel : Nat) (data : LoopData σ) : Option (LoopData σ) :=
  -- block stride loop
  let len : Int := to_int (segment_length ArgumentId data)
  let i0 := get_cuda_dim ThreadDim regs.threadIdx
  let i_stride := get_cuda_dim ThreadDim regs.blockDim
  stride_loop
    (fun i data =>
      -- Assign the x thread to the argument
      let data := assign_offset ArgumentId i data
      -- execute enclosed statements
      enclosed_stmts data)
    len i_stride fuel i0 data

/-- The local `dims` of the block-stride `calculateDimensions` before it is
combined with the enclosed statements: a default `LaunchDims` (`dflt`) with
`threads` along `ThreadDim` set to the `int len`, converted to the unsigned
component type, and `min_threads` along `ThreadDim` set to `MinThreads`. -/
def For_cuda_thread_xyz_loop.dims (dflt : LaunchDims) (ThreadDim : Fin 3)
    (MinThreads : Nat) (len : Int) : LaunchDims :=
  let dims := dflt
  -- request one thread per element in the segment
  let dims := { dims with threads := set_cuda_dim ThreadDim dims.threads (to_unsigned len) }
  -- but, since we are looping, we only need 1 thread, or whatever
  -- the user specified for MinThreads
  { dims with min_threads := set_cuda_dim ThreadDim dims.min_threads MinThreads }

/-- Function `calculateDimensions` of
`For<ArgumentId, cuda_thread_xyz_loop<ThreadDim, MinThreads>, ...>`. -/
def For_cuda_thread_xyz_loop.calculateDimensions {σ : Type} (dflt : LaunchDims)
    (enclosed_calculateDimensions : LoopData σ → LaunchDims) (ArgumentId : Nat)
    (ThreadDim : Fin 3) (MinThreads : Nat) (data : LoopData σ) : LaunchDims :=
  let len : Int := to_int (segment_length ArgumentId data)
  let dims := For_cuda_thread_xyz_loop.dims dflt ThreadDim MinThreads len
  -- combine with enclosed statements
  let enclosed_dims := enclosed_calculateDimensions data
  dims.max enclosed_dims

/-- Executor `exec` of
`ForICount<ArgumentId, ParamId, cuda_thread_xyz_loop<ThreadDim, MinThreads>, ...>`. -/
def ForICount_cuda_thread_xyz_loop.exec {σ : Type}
    (enclosed_stmts : LoopData σ → LoopData σ) (ArgumentId ParamId : Nat)
    (ThreadDim : Fin 3) (regs : CudaRegs) (fuel : Nat) (data : LoopData σ) :
    Option (LoopData σ) :=
  -- block stride loop
  let len : Int := to_int (segment_length ArgumentId data)
  let i0 := get_cuda_dim ThreadDim regs.threadIdx
  let i_stride := get_cuda_dim ThreadDim regs.blockDim
  stride_loop
    (fun i data =>
      -- Assign the x thread to the argument
      let data := assign_offset ArgumentId i data
      let data := assign_param ParamId i data
      -- execute enclosed statements
      enclosed_stmts data)
    len i_stride fuel i0 data

/-! ## Grid-stride block policy `cuda_block_xyz_loop<BlockDim>` -/

/-- Executor `exec` of `For<ArgumentId, cuda_block_xyz_loop<BlockDim>, ...>`: a
grid-stride loop from `blockIdx` in steps of `gridDim`. -/
def For_cuda_block_xyz_loop.exec {σ : Type}
    (enclosed_stmts : LoopData σ → LoopData σ) (ArgumentId : Nat) (BlockDim : Fin 3)
    (regs : CudaRegs) (fuel : Nat) (data : LoopData σ) : Option (LoopData σ) :=
  -- grid stride loop
  let len : Int := to_int (segment_length ArgumentId data)
  let i0 := get_cuda_dim BlockDim regs.blockIdx
  let i_stride := get_cuda_dim BlockDim regs.gridDim
  stride_loop
    (fun i data =>
      -- Assign the x thread to the argument
      let data := assign_offset ArgumentId i data
      -- execute enclosed statements
      enclosed_stmts data)
    len i_stride fuel i0 data

/-- The local `dims` of the grid-stride `calculateDimensions` before it is
combined with the enclosed statements: a default `LaunchDims` (`dflt`) with
`blocks` along `BlockDim` set to the `int len`, converted to the unsigned
component type. -/
def For_cuda_block_xyz_loop.dims (dflt : LaunchDims) (BlockDim : Fin 3)
    (len : Int) : LaunchDims :=
  let dims := dflt
  -- request one block per element in the segment
  { dims with blocks := set_cuda_dim BlockDim dims.blocks (to_unsigned len) }

/-- Function `calculateDimensions` of
`For<ArgumentId, cuda_block_xyz_loop<BlockDim>, ...>`. -/
def For_cuda_block_xyz_loop.calculateDimensions {σ : Type} (dflt : LaunchDims)
    (enclosed_calculateDimensions : LoopData σ → LaunchDims) (ArgumentId : Nat)
    (BlockDim : Fin 3) (data : LoopData σ) : LaunchDims :=
  let len : Int := to_int (segment_length ArgumentId data)
  let dims := For_cuda_block_xyz_loop.dims dflt BlockDim len
  -- combine with enclosed statements
  let enclosed_dims := enclosed_calculateDimensions data
  dims.max enclosed_dims

/-- Executor `exec` of
`ForICount<ArgumentId, ParamId, cuda_block_xyz_loop<BlockDim>, ...>`. -/
def ForICount_cuda_block_xyz_loop.exec {σ : Type}
    (enclosed_stmts : LoopData σ → LoopData σ) (ArgumentId ParamId : Nat)
    (BlockDim : Fin 3) (regs : CudaRegs) (fuel : Nat) (data : LoopData σ) :
    Option (LoopData σ) :=
  -- grid stride loop
  let len : Int := to_int (segment_length ArgumentId data)
  let i0 := get_cuda_dim BlockDim regs.blockIdx
  let i_stride := get_cuda_dim BlockDim regs.gridDim
  stride_loop
    (fun i data =>
      -- Assign the x thread to the argument
      let data := assign_offset ArgumentId i data
      let data := assign_param ParamId i data
      -- execute enclosed statements
      enclosed_stmts data)
    len i_stride fuel i0 data

/-! ## Sequential policy `seq_exec` -/

/-- Executor `exec` of `For<ArgumentId, seq_exec, ...>`. -/
def For_seq_exec.exec {σ : Type} (enclosed_stmts : LoopData σ → LoopData σ)
    (ArgumentId : Nat) (data : LoopData σ) : LoopData σ :=
  let len := segment_length ArgumentId data
  seq_loop
    (fun i data =>
      -- Assign i to the argument
      let data := assign_offset ArgumentId i data
      -- execute enclosed statements
      enclosed_stmts data)
    len 0 data

/-- Function `calculateDimensions` of `For<ArgumentId, seq_exec, ...>`. -/
def For_seq_exec.calculateDimensions {σ : Type}
    (enclosed_calculateDimensions : LoopData σ → LaunchDims) (data : LoopData σ) :
    LaunchDims :=
  enclosed_calculateDimensions data

/-- Executor `exec` of `ForICount<ArgumentId, ParamId, seq_exec, ...>`. -/
def ForICount_seq_exec.exec {σ : Type} (enclosed_stmts : LoopData σ → LoopData σ)
    (ArgumentId ParamId : Nat) (data : LoopData σ) : LoopData σ :=
  let len := segment_length ArgumentId data
  seq_loop
    (fun i data =>
      -- Assign i to the argument
      let data := assign_offset ArgumentId i data
      let data := assign_param ParamId i data
      -- execute enclosed statements
      enclosed_stmts data)
    len 0 data

end internal

/-! ## `teams_core.hpp`: resources and launch -/

/-- The enum `ExecPlace`.  The enumerator `DEVICE` exists only when
`RAJA_ENABLE_CUDA` is defined; `NUM_PLACES` is the count sentinel. -/
inductive ExecPlace where
  | HOST
  | DEVICE
  | NUM_PLACES
deriving DecidableEq, Repr

/-- The struct `Teams`: `int value[3]`. -/
structure Teams where
  value : Int × Int × Int
deriving DecidableEq, Repr

/-- Constructor `Teams()`. -/
def Teams.ctor0 : Teams := { value := (1, 1, 1) }

/-- Constructor `Teams(int i)`. -/
def Teams.ctor1 (i : Int) : Teams := { value := (i, 1, 1) }

/-- Constructor `Teams(int i, int j)`. -/
def Teams.ctor2 (i j : Int) : Teams := { value := (i, j, 1) }

/-- Constructor `Teams(int i, int j, int k)`. -/
def Teams.ctor3 (i j k : Int) : Teams := { value := (i, j, k) }

/-- The struct `Threads`: `int value[3]`. -/
structure Threads where
  value : Int × Int × Int
deriving DecidableEq, Repr

/-- Constructor `Threads()`. -/
def Threads.ctor0 : Threads := { value := (1, 1, 1) }

/-- Constructor `Threads(int i)`. -/
def Threads.ctor1 (i : Int) : Threads := { value := (i, 1, 1) }

/-- Constructor `Threads(int i, int j)`. -/
def Threads.ctor2 (i j : Int) : Threads := { value := (i, j, 1) }

/-- Constructor `Threads(int i, int j, int k)`. -/
def Threads.ctor3 (i j k : Int) : Threads := { value := (i, j, k) }

/-- The struct `Lanes`: `int value`. -/
structure Lanes where
  value : Int
deriving DecidableEq, Repr

/-- Constructor `Lanes()`: `value(0)`. -/
def Lanes.ctor0 : Lanes := { value := 0 }

/-- Constructor `Lanes(int i)`. -/
def Lanes.ctor1 (i : Int) : Lanes := { value := i }

/-- The struct `Resources`. -/
structure Resources where
  teams : Teams
  threads : Threads
  lanes : Lanes
deriving DecidableEq, Repr

/-- Constructor `Resources() = default`: every member is default-constructed. -/
def Resources.ctor0 : Resources :=
  { teams := Teams.ctor0, threads := Threads.ctor0, lanes := Lanes.ctor0 }

/-- Constructor `Resources(Teams in_teams, Threads in_threads)`; `lanes` is not
in the initialiser list and is default-constructed. -/
def Resources.ctor2 (in_teams : Teams) (in_threads : Threads) : Resources :=
  { teams := in_teams, threads := in_threads, lanes := Lanes.ctor0 }

/-- The class `LaunchContext : public Resources` with its field `exec_place`. -/
structure LaunchContext extends Resources where
  exec_place : ExecPlace
deriving DecidableEq, Repr

/-- Constructor `LaunchContext(Resources const &base, ExecPlace place)`. -/
def LaunchContext.ctor (base : Resources) (place : ExecPlace) : LaunchContext :=
  { toResources := base, exec_place := place }

/-- What a call of `launch` leaves behind: it returned normally, or it threw
the given message; in both cases with the program state it reached. -/
inductive LaunchOutcome (σ : Type) where
  | returned (state : σ)
  | thrown (what : String) (state : σ)
deriving DecidableEq, Repr

/-- The function `launch<POLICY_LIST>(place, team_resources, body)`.
`LaunchExecute<...>::exec` is only declared in the sources, so the host and the
device strategy are the parameters `host_exec` and `device_exec`, state
transformers on the program state `σ`.  `RAJA_ENABLE_CUDA` is the build flag:
without it the `case DEVICE` is not compiled and the value falls to `default`. -/
def launch {σ β : Type} (RAJA_ENABLE_CUDA : Bool)
    (host_exec device_exec : LaunchContext → β → σ → σ)
    (place : ExecPlace) (team_resources : Resources) (body : β) (state : σ) :
    LaunchOutcome σ :=
  match place with
  | ExecPlace.HOST =>
    LaunchOutcome.returned
      (host_exec (LaunchContext.ctor team_resources ExecPlace.HOST) body state)
  | ExecPlace.DEVICE =>
    if RAJA_ENABLE_CUDA then
      LaunchOutcome.returned
        (device_exec (LaunchContext.ctor team_resources ExecPlace.DEVICE) body state)
    else LaunchOutcome.thrown "unknown launch place!" state
  | ExecPlace.NUM_PLACES => LaunchOutcome.thrown "unknown launch place!" state

/-! ## `teams_core.hpp`: thread-private memory -/

/-- The number of elements of the backing `Array` of
`PrivateMemoryImpl<DataType, N, Nx, Ny, Nz>`: `N` when compiled for the device
(`__CUDA_ARCH__`), `N*Nx*Ny*Nz` on the host. -/
def PrivateMemoryImpl.Array_size (CUDA_ARCH : Bool) (N Nx Ny Nz : Nat) : Nat :=
  if CUDA_ARCH then N else N * Nx * Ny * Nz

/-- The position of `Array` that
`PrivateMemoryImpl<DataType, N, Nx, Ny, Nz>::operator()(i, tx, ty, tz)` returns
a reference to (`Nz` does not enter the computation; `ty` and `tz` default to
`0` in the source).  The sizes are `size_t`, the arguments `int`: the sum is
formed in the 64-bit `size_t`, modulo `2^64`, and narrowed to `const int
offset`; `i + offset` is an `int` addition (its overflow, undefined in the
source, is taken with wrap-around). -/
def PrivateMemoryImpl.call (CUDA_ARCH : Bool) (N Nx Ny : Nat) (i tx ty tz : Int) : Int :=
  if CUDA_ARCH then i
  else
    let offset : Int :=
      to_int ((N * tx + N * Nx * ty + N * Nx * Ny * tz) % 18446744073709551616)
    to_int (i + offset)

/-! ## `RegisterMatrix.hpp`: row and column indices -/

/-- Modelled from the spec: `RowIndex<IDX, MATRIX_TYPE>`, a typed wrapper over
a plain index plus a size; `*r` is `index`, `r.size()` is `size`, and the
constructor takes `(index, size)`.  Declared in
`internal/RegisterMatrixImpl.hpp`, which is not among the sources. -/
structure RowIndex (IDX MATRIX_TYPE : Type) where
  index : IDX
  size : IDX

/-- Modelled from the spec: `ColIndex<IDX, MATRIX_TYPE>`, the column
counterpart of `RowIndex`. -/
structure ColIndex (IDX MATRIX_TYPE : Type) where
  index : IDX
  size : IDX

/-- The function `toColIndex`: converts a row index to a column index. -/
def toColIndex {IDX MATRIX_TYPE : Type} (r : RowIndex IDX MATRIX_TYPE) :
    ColIndex IDX MATRIX_TYPE :=
  ColIndex.mk r.index r.size

/-- The function `toRowIndex`: converts a column index to a row index. -/
def toRowIndex {IDX MATRIX_TYPE : Type} (c : ColIndex IDX MATRIX_TYPE) :
    RowIndex IDX MATRIX_TYPE :=
  RowIndex.mk c.index c.size

/-! ## Observers and lane enumerations used to state the properties -/

/-- A loop body that appends the current offset of `ArgumentId` to a list held
in the memory the bodies capture. -/
def append_offset (ArgumentId : Nat) (data : LoopData (List Nat)) :
    LoopData (List Nat) :=
  { data with bodies := data.bodies ++ [data.offset_tuple ArgumentId] }

/-- A loop body that appends the pair (current offset of `ArgumentId`, current
value of param slot `ParamId`) to a list held in the memory the bodies capture. -/
def append_offset_param (ArgumentId ParamId : Nat) (data : LoopData (List (Nat × Nat))) :
    LoopData (List (Nat × Nat)) :=
  { data with
    bodies := data.bodies ++ [(data.offset_tuple ArgumentId, data.param_tuple ParamId)] }

/-- The offsets `i0, i0 + i_stride, i0 + 2 * i_stride, ...` below `len`, in
increasing order: `ceil((len - i0) / i_stride)` of them. -/
def strided_offsets (len i_stride i0 : Nat) : List Nat :=
  (List.range ((len - i0 + i_stride - 1) / i_stride)).map (fun j => i0 + j * i_stride)

/-- The context of the example scenario: one segment `[0, 10)` for every
argument, all offsets and params `0`, and an empty list as body memory. -/
def example_data : LoopData (List Nat) :=
  { segment_tuple := fun _ => [0, 1, 2, 3, 4, 5, 6, 7, 8, 9],
    offset_tuple := fun _ => 0,
    param_tuple := fun _ => 0,
    bodies := [] }

/-- A context whose segments are all the range `[0, n)` (all offsets and params
`0`, an empty list as body memory). -/
def long_data (n : Nat) : LoopData (List Nat) :=
  { segment_tuple := fun _ => List.map Int.ofNat (List.range n),
    offset_tuple := fun _ => 0,
    param_tuple := fun _ => 0,
    bodies := [] }

/-- The registers of the thread with index `i` along `ThreadDim` in a block of
extent `H` along `ThreadDim` (index `0`, extent `1` elsewhere). -/
def thread_lane (ThreadDim : Fin 3) (H i : Nat) : CudaRegs :=
  { threadIdx := set_cuda_dim ThreadDim ⟨0, 0, 0⟩ i,
    blockIdx := ⟨0, 0, 0⟩,
    blockDim := set_cuda_dim ThreadDim ⟨1, 1, 1⟩ H,
    gridDim := ⟨1, 1, 1⟩ }

/-- Whether `launch` dispatches on `place`: `HOST`, or `DEVICE` when the build
has `RAJA_ENABLE_CUDA`. -/
def recognized_place (RAJA_ENABLE_CUDA : Bool) (place : ExecPlace) : Bool :=
  match place with
  | ExecPlace.HOST => true
  | ExecPlace.DEVICE => RAJA_ENABLE_CUDA
  | ExecPlace.NUM_PLACES => false

/-- Whether a call of `launch` threw. -/
def LaunchOutcome.raised {σ : Type} (r : LaunchOutcome σ) : Bool :=
  match r with
  | LaunchOutcome.returned _ => false
  | LaunchOutcome.thrown _ _ => true

/-- A launch strategy that only records its invocation: it appends its own
label `which` and the launch context it was handed to the program state. -/
def record_exec {β : Type} (which : ExecPlace) (ctx : LaunchContext) (_body : β)
    (calls : List (ExecPlace × LaunchContext)) : List (ExecPlace × LaunchContext) :=
  calls ++ [(which, ctx)]

/-- The stated invariant of `Resources`: every value is a positive integer. -/
def Resources.all_positive (r : Resources) : Prop :=
  (1 ≤ r.teams.value.1 ∧ 1 ≤ r.teams.value.2.1 ∧ 1 ≤ r.teams.value.2.2)
    ∧ (1 ≤ r.threads.value.1 ∧ 1 ≤ r.threads.value.2.1 ∧ 1 ≤ r.threads.value.2.2)
    ∧ 1 ≤ r.lanes.value

/-- A default `LaunchDims` used in the instances: `1` in every component. -/
def example_dims : LaunchDims :=
  { blocks := ⟨1, 1, 1⟩, threads := ⟨1, 1, 1⟩, min_threads := ⟨1, 1, 1⟩ }

/-- The context of the example scenario with a list of pairs as body memory:
one segment `[0, 10)` for every argument, all offsets and params `0`. -/
def example_pairs : LoopData (List (Nat × Nat)) :=
  { segment_tuple := fun _ => [0, 1, 2, 3, 4, 5, 6, 7, 8, 9],
    offset_tuple := fun _ => 0,
    param_tuple := fun _ => 0,
    bodies := [] }

/-- The registers of a thread whose thread index and block index along `Dim`
are both `i`, in a block and a grid of extent `H` along `Dim`. -/
def strided_lane (Dim : Fin 3) (H i : Nat) : CudaRegs :=
  { threadIdx := set_cuda_dim Dim ⟨0, 0, 0⟩ i,
    blockIdx := set_cuda_dim Dim ⟨0, 0, 0⟩ i,
    blockDim := set_cuda_dim Dim ⟨1, 1, 1⟩ H,
    gridDim := set_cuda_dim Dim ⟨1, 1, 1⟩ H }

/-! ## Auxiliary lemmas -/

theorem assign_offset_offset {σ : Type} (a i : Nat) (d : LoopData σ) :
    (assign_offset a i d).offset_tuple a = i := by
  simp [assign_offset]

theorem segment_length_assign_offset {σ : Type} (a b i : Nat) (d : LoopData σ) :
    segment_length a (assign_offset b i d) = segment_length a d := rfl

theorem segment_length_assign_param {σ : Type} (a p i : Nat) (d : LoopData σ) :
    segment_length a (assign_param p i d) = segment_length a d := rfl

theorem segment_length_long_data (a n : Nat) : segment_length a (long_data n) = n := by
  simp [segment_length, long_data]

theorem internal.seq_loop_eq_foldl {D : Type} (body : Nat → D → D) (len : Nat) :
    ∀ (n i : Nat) (data : D), len - i = n →
      internal.seq_loop body len i data
        = (List.range' i n).foldl (fun d k => body k d) data := by
  intro n
  induction n with
  | zero =>
    intro i data h
    rw [internal.seq_loop, if_neg (by omega)]
    rfl
  | succ n ih =>
    intro i data h
    rw [internal.seq_loop, if_pos (by omega), ih (i + 1) (body i data) (by omega)]
    rfl

theorem foldl_append_offset (a : Nat) (l : List Nat) :
    ∀ d : LoopData (List Nat),
      (l.foldl (fun d k => append_offset a (assign_offset a k d)) d).bodies
        = d.bodies ++ l := by
  induction l with
  | nil => intro d; simp
  | cons k l ih =>
    intro d
    rw [List.foldl_cons, ih]
    simp [append_offset, assign_offset]

/-! ## Sequential `For` -/

/-- C1: for a segment of length `N`, the sequential `For` executor runs the
enclosed statements exactly `N` times, the `k`-th run (`k = 0 .. N-1`) starting
from a context whose offset for `ArgumentId` is `k`; so a body that appends
the offset it sees produces `0, 1, ..., N-1` in this order (nothing for
`N = 0`). -/
theorem seq_for_exec_runs_offsets_in_order {σ : Type}
    (enclosed_stmts : LoopData σ → LoopData σ) (ArgumentId : Nat)
    (data : LoopData σ) (logged : LoopData (List Nat)) :
    internal.For_seq_exec.exec enclosed_stmts ArgumentId data
        = (List.range (segment_length ArgumentId data)).foldl
            (fun d k => enclosed_stmts (assign_offset ArgumentId k d)) data
      ∧ (∀ (k : Nat) (d : LoopData σ),
          (assign_offset ArgumentId k d).offset_tuple ArgumentId = k)
      ∧ (internal.For_seq_exec.exec (append_offset ArgumentId) ArgumentId logged).bodies
          = logged.bodies ++ List.range (segment_length ArgumentId logged) := by
  have key : ∀ {τ : Type} (f : LoopData τ → LoopData τ) (d : LoopData τ),
      internal.For_seq_exec.exec f ArgumentId d
        = (List.range (segment_length ArgumentId d)).foldl
            (fun d k => f (assign_offset ArgumentId k d)) d := by
    intro τ f d
    unfold internal.For_seq_exec.exec
    simp only []
    rw [internal.seq_loop_eq_foldl _ _ (segment_length ArgumentId d) 0 d (by omega),
      List.range_eq_range']
  refine ⟨key enclosed_stmts data, fun k d => assign_offset_offset ArgumentId k d, ?_⟩
  rw [key, foldl_append_offset]

/-- C1, example scenario: the segment `[0, 10)` with a body appending each
offset yields `[0, 1, ..., 9]`. -/
theorem seq_for_exec_example :
    (internal.For_seq_exec.exec (append_offset 0) 0 example_data).bodies
      = [0, 1, 2, 3, 4, 5, 6, 7, 8, 9] :=
  (seq_for_exec_runs_offsets_in_order (append_offset 0) 0 example_data example_data).2.2

/-! ## Direct-mapped `For` -/

theorem get_set_cuda_dim (dim : Fin 3) (d : cuda_dim_t) (v : Nat) :
    get_cuda_dim dim (set_cuda_dim dim d v) = v := by
  fin_cases dim <;> rfl

theorem filter_lt_range (N : Nat) :
    ∀ H : Nat, N ≤ H → (List.range H).filter (fun i => decide (i < N)) = List.range N := by
  intro H
  induction H with
  | zero =>
    intro h
    have : N = 0 := by omega
    subst this
    rfl
  | succ H ih =>
    intro h
    rw [List.range_succ, List.filter_append]
    by_cases hN : N ≤ H
    · rw [ih hN]
      have : decide (H < N) = false := by simp; omega
      simp [List.filter_cons, this]
    · have hN' : N = H + 1 := by omega
      subst hN'
      have h1 : (List.range H).filter (fun i => decide (i < H + 1)) = List.range H := by
        rw [List.filter_eq_self]
        intro a ha
        have := List.mem_range.mp ha
        simp; omega
      rw [h1, List.range_succ]
      simp

/-- C2: direct-mapped thread `For` over a segment of length `N` on `H ≥ N`
lanes with hardware indices `0 .. H-1`, each lane running `exec` on its own
copy of the context: a lane with index `i < N` runs the enclosed statements
once, from a context whose offset for `ArgumentId` is `i`; a lane with index
`i ≥ N` does not run them; so the lanes that execute are exactly the `N` lanes
`0 .. N-1`. -/
theorem direct_for_exec_lanes {σ : Type}
    (enclosed_stmts : LoopData σ → LoopData σ) (ArgumentId : Nat) (ThreadDim : Fin 3)
    (H : Nat) (regs : Nat → CudaRegs)
    (hregs : ∀ i, i < H → get_cuda_dim ThreadDim (regs i).threadIdx = i)
    (data : LoopData σ) (logged : LoopData (List Nat))
    (hlogged : segment_length ArgumentId logged ≤ H) :
    (∀ i, i < H →
        internal.For_cuda_thread_xyz_direct.exec enclosed_stmts ArgumentId ThreadDim
            (regs i) data
          = if i < segment_length ArgumentId data
            then enclosed_stmts (assign_offset ArgumentId i data)
            else assign_offset ArgumentId i data)
      ∧ (∀ (i : Nat) (d : LoopData σ),
          (assign_offset ArgumentId i d).offset_tuple ArgumentId = i)
      ∧ (∀ i, i < H →
          (internal.For_cuda_thread_xyz_direct.exec (append_offset ArgumentId)
              ArgumentId ThreadDim (regs i) logged).bodies
            = if i < segment_length ArgumentId logged then logged.bodies ++ [i]
              else logged.bodies)
      ∧ (List.range H).filter
          (fun i => decide
            ((internal.For_cuda_thread_xyz_direct.exec (append_offset ArgumentId)
                ArgumentId ThreadDim (regs i) logged).bodies ≠ logged.bodies))
          = List.range (segment_length ArgumentId logged) := by
  have hlog : ∀ i, i < H →
      (internal.For_cuda_thread_xyz_direct.exec (append_offset ArgumentId)
          ArgumentId ThreadDim (regs i) logged).bodies
        = if i < segment_length ArgumentId logged then logged.bodies ++ [i]
          else logged.bodies := by
    intro i hi
    unfold internal.For_cuda_thread_xyz_direct.exec
    simp only [hregs i hi]
    split
    · simp [append_offset, assign_offset]
    · rfl
  refine ⟨?_, fun i d => assign_offset_offset ArgumentId i d, hlog, ?_⟩
  · intro i hi
    unfold internal.For_cuda_thread_xyz_direct.exec
    simp only [hregs i hi]
  · rw [← filter_lt_range _ H hlogged]
    apply List.filter_congr
    intro i hi
    rw [hlog i (List.mem_range.mp hi)]
    by_cases h : i < segment_length ArgumentId logged <;> simp [h]

/-- C2, instance: the segment `[0, 10)` on `12` thread lanes along x. -/
theorem direct_for_exec_lanes_witness :
    (List.range 12).filter
        (fun i => decide
          ((internal.For_cuda_thread_xyz_direct.exec (append_offset 0) 0 0
              (thread_lane 0 12 i) example_data).bodies ≠ example_data.bodies))
      = List.range (segment_length 0 example_data) :=
  (direct_for_exec_lanes (append_offset 0) 0 0 12 (thread_lane 0 12)
    (fun _ _ => rfl) example_data example_data (by decide)).2.2.2

/-! ## Strided `For` -/

theorem strided_offsets_of_le (len S i : Nat) (hS : 0 < S) (h : len ≤ i) :
    strided_offsets len S i = [] := by
  unfold strided_offsets
  have h0 : len - i + S - 1 = S - 1 := by omega
  have h1 : (S - 1) / S = 0 := Nat.div_eq_of_lt (by omega)
  rw [h0, h1]
  rfl

theorem strided_count_succ (len S i : Nat) (hS : 0 < S) (h : i < len) :
    (len - i + S - 1) / S = (len - (i + S) + S - 1) / S + 1 := by
  by_cases hm : S ≤ len - i
  · have h0 : len - i + S - 1 = (len - (i + S) + S - 1) + S := by omega
    rw [h0, Nat.add_div_right _ hS]
  · have h0 : len - (i + S) + S - 1 = S - 1 := by omega
    have h1 : (S - 1) / S = 0 := Nat.div_eq_of_lt (by omega)
    rw [h0, h1]
    have h2 : len - i + S - 1 = (len - i - 1) + S := by omega
    have h3 : (len - i - 1) / S = 0 := Nat.div_eq_of_lt (by omega)
    rw [h2, Nat.add_div_right _ hS, h3]

theorem strided_offsets_of_lt (len S i : Nat) (hS : 0 < S) (h : i < len) :
    strided_offsets len S i = i :: strided_offsets len S (i + S) := by
  unfold strided_offsets
  rw [strided_count_succ len S i hS h, List.range_succ_eq_map, List.map_cons,
    List.map_map]
  congr 1
  · simp
  · apply List.map_congr_left
    intro j _
    simp only [Function.comp, Nat.succ_eq_add_one]
    ring

theorem to_unsigned_to_int (n : Nat) : to_unsigned (to_int n) = n % 4294967296 := by
  unfold to_unsigned to_int
  omega

theorem to_unsigned_to_int_of_lt (n : Nat) (h : n < 2147483648) :
    to_unsigned (to_int n) = n := by
  unfold to_unsigned to_int
  omega

theorem to_unsigned_to_int_le (n : Nat) : to_unsigned (to_int n) ≤ n := by
  unfold to_unsigned to_int
  omega

theorem internal.stride_loop_no_wrap {D : Type} (body : Nat → D → D) (len : Int) (S : Nat)
    (hS : 0 < S) (hwrap : to_unsigned len + S ≤ 4294967296) :
    ∀ (fuel i : Nat) (data : D), to_unsigned len - i < fuel →
      internal.stride_loop body len S fuel i data
        = some ((strided_offsets (to_unsigned len) S i).foldl (fun d k => body k d) data) := by
  intro fuel
  induction fuel with
  | zero => intro i data h; omega
  | succ fuel ih =>
    intro i data h
    unfold internal.stride_loop
    by_cases hi : i < to_unsigned len
    · have hmod : (i + S) % 4294967296 = i + S := Nat.mod_eq_of_lt (by omega)
      rw [if_pos hi, hmod, ih (i + S) (body i data) (by omega),
        strided_offsets_of_lt (to_unsigned len) S i hS hi]
      rfl
    · rw [if_neg hi, strided_offsets_of_le (to_unsigned len) S i hS (by omega)]
      rfl

theorem internal.stride_loop_eq_foldl {D : Type} (body : Nat → D → D) (N S : Nat)
    (hS : 0 < S) (hN : N < 2147483648) (hS2 : S < 2147483648) :
    ∀ (fuel i : Nat) (data : D), N - i < fuel →
      internal.stride_loop body (to_int N) S fuel i data
        = some ((strided_offsets N S i).foldl (fun d k => body k d) data) := by
  intro fuel i data h
  have hu := to_unsigned_to_int_of_lt N hN
  have := internal.stride_loop_no_wrap body (to_int N) S hS (by omega) fuel i data (by omega)
  rw [hu] at this
  exact this

/-- C4: round trip in both directions: `toRowIndex (toColIndex r)` has the raw
index and the size of `r` (it is `r`), and `toColIndex (toRowIndex c)` has the
raw index and the size of `c` (it is `c`). -/
theorem index_round_trip {IDX MATRIX_TYPE : Type} (r : RowIndex IDX MATRIX_TYPE)
    (c : ColIndex IDX MATRIX_TYPE) :
    ((toRowIndex (toColIndex r)).index = r.index
        ∧ (toRowIndex (toColIndex r)).size = r.size
        ∧ toRowIndex (toColIndex r) = r)
      ∧ ((toColIndex (toRowIndex c)).index = c.index
        ∧ (toColIndex (toRowIndex c)).size = c.size
        ∧ toColIndex (toRowIndex c) = c) :=
  ⟨⟨rfl, rfl, rfl⟩, ⟨rfl, rfl, rfl⟩⟩

/-! ## `launch` -/

/-- C5: `launch` throws exactly when `place` is not a recognized place (`HOST`,
or `DEVICE` with device support), in particular for `NUM_PLACES`; when it
throws, the program state is the one it was called with and no strategy was
invoked; for a recognized place it returns after invoking exactly the strategy
of that place, once, on a `LaunchContext` that carries the given resources and
has `exec_place = place`. -/
theorem launch_dispatch {σ β : Type} (RAJA_ENABLE_CUDA : Bool)
    (host_exec device_exec : LaunchContext → β → σ → σ) (place : ExecPlace)
    (team_resources : Resources) (body : β) (state : σ)
    (calls : List (ExecPlace × LaunchContext)) :
    ((launch RAJA_ENABLE_CUDA host_exec device_exec place team_resources body state).raised
          = true
        ↔ recognized_place RAJA_ENABLE_CUDA place = false)
      ∧ recognized_place RAJA_ENABLE_CUDA ExecPlace.NUM_PLACES = false
      ∧ (recognized_place RAJA_ENABLE_CUDA place = false →
          launch RAJA_ENABLE_CUDA host_exec device_exec place team_resources body state
              = LaunchOutcome.thrown "unknown launch place!" state
            ∧ launch RAJA_ENABLE_CUDA (record_exec ExecPlace.HOST)
                (record_exec ExecPlace.DEVICE) place team_resources body calls
              = LaunchOutcome.thrown "unknown launch place!" calls)
      ∧ (recognized_place RAJA_ENABLE_CUDA place = true →
          launch RAJA_ENABLE_CUDA host_exec device_exec place team_resources body state
              = LaunchOutcome.returned
                  ((if place = ExecPlace.HOST then host_exec else device_exec)
                    (LaunchContext.ctor team_resources place) body state)
            ∧ launch RAJA_ENABLE_CUDA (record_exec ExecPlace.HOST)
                (record_exec ExecPlace.DEVICE) place team_resources body calls
              = LaunchOutcome.returned
                  (calls ++ [(place, LaunchContext.ctor team_resources place)]))
      ∧ ((LaunchContext.ctor team_resources place).teams = team_resources.teams
        ∧ (LaunchContext.ctor team_resources place).threads = team_resources.threads
        ∧ (LaunchContext.ctor team_resources place).lanes = team_resources.lanes
        ∧ (LaunchContext.ctor team_resources place).exec_place = place) := by
  refine ⟨?_, rfl, ?_, ?_, ⟨rfl, rfl, rfl, rfl⟩⟩
  · cases place <;> cases RAJA_ENABLE_CUDA <;>
      simp [launch, LaunchOutcome.raised, recognized_place]
  · intro h
    cases place <;> cases RAJA_ENABLE_CUDA <;>
      simp_all [launch, recognized_place]
  · intro h
    cases place <;> cases RAJA_ENABLE_CUDA <;>
      simp_all [launch, recognized_place, record_exec]

/-- C5, instance: `launch` on `NUM_PLACES` throws without invoking a strategy,
and `launch` on `HOST` with `Teams(4)`, `Threads(32)` invokes the host strategy
once. -/
theorem launch_dispatch_witness :
    (launch (β := Unit) true (record_exec ExecPlace.HOST) (record_exec ExecPlace.DEVICE)
        ExecPlace.NUM_PLACES (Resources.ctor2 (Teams.ctor1 4) (Threads.ctor1 32)) () []
      = LaunchOutcome.thrown "unknown launch place!" [])
    ∧ (launch (β := Unit) true (record_exec ExecPlace.HOST) (record_exec ExecPlace.DEVICE)
        ExecPlace.HOST (Resources.ctor2 (Teams.ctor1 4) (Threads.ctor1 32)) () []
      = LaunchOutcome.returned
          ([] ++ [(ExecPlace.HOST,
            LaunchContext.ctor (Resources.ctor2 (Teams.ctor1 4) (Threads.ctor1 32))
              ExecPlace.HOST)])) :=
  ⟨((launch_dispatch true (record_exec ExecPlace.HOST) (record_exec ExecPlace.DEVICE)
      ExecPlace.NUM_PLACES (Resources.ctor2 (Teams.ctor1 4) (Threads.ctor1 32)) () []
      []).2.2.1 rfl).2,
   ((launch_dispatch true (record_exec ExecPlace.HOST) (record_exec ExecPlace.DEVICE)
      ExecPlace.HOST (Resources.ctor2 (Teams.ctor1 4) (Threads.ctor1 32)) () []
      []).2.2.2.1 rfl).2⟩

/-! ## `calculateDimensions` -/

theorem get_set_cuda_dim_ne (dim dim2 : Fin 3) (d : cuda_dim_t) (v : Nat)
    (h : dim2 ≠ dim) : get_cuda_dim dim2 (set_cuda_dim dim d v) = get_cuda_dim dim2 d := by
  fin_cases dim <;> fin_cases dim2 <;> first | rfl | exact absurd rfl h

theorem get_cuda_dim_max (dim : Fin 3) (a c : cuda_dim_t) :
    get_cuda_dim dim (a.max c) = max (get_cuda_dim dim a) (get_cuda_dim dim c) := by
  fin_cases dim <;> exact Nat.max_comm _ _

/-- C6, amended: the direct-mapped thread `For` along `ThreadDim` over a
segment of length `N < 2^31` with enclosed requirement `E` returns the
pointwise maximum of its own requirement and `E`: `threads` and `min_threads`
along `ThreadDim` are `max N (E along ThreadDim)`, and every other component
is what merging a default `LaunchDims` with `E` gives, so it does not depend on
`N`.  The grid-stride block `For` along `BlockDim` yields `blocks` along
`BlockDim` equal to `max N (E.blocks along BlockDim)`, and all its other
components are those of the default merged with `E`. -/
theorem calculateDimensions_pointwise_max {σ : Type} (dflt : LaunchDims)
    (enclosed_calculateDimensions : LoopData σ → LaunchDims) (ArgumentId : Nat)
    (Dim : Fin 3) (data : LoopData σ)
    (hN : segment_length ArgumentId data < 2147483648) :
    (internal.For_cuda_thread_xyz_direct.calculateDimensions dflt
          enclosed_calculateDimensions ArgumentId Dim data
        = (internal.For_cuda_thread_xyz_direct.dims dflt Dim
            (to_int (segment_length ArgumentId data))).max
              (enclosed_calculateDimensions data)
      ∧ get_cuda_dim Dim (internal.For_cuda_thread_xyz_direct.calculateDimensions dflt
          enclosed_calculateDimensions ArgumentId Dim data).threads
        = max (segment_length ArgumentId data)
            (get_cuda_dim Dim (enclosed_calculateDimensions data).threads)
      ∧ get_cuda_dim Dim (internal.For_cuda_thread_xyz_direct.calculateDimensions dflt
          enclosed_calculateDimensions ArgumentId Dim data).min_threads
        = max (segment_length ArgumentId data)
            (get_cuda_dim Dim (enclosed_calculateDimensions data).min_threads)
      ∧ (∀ other : Fin 3, other ≠ Dim →
          get_cuda_dim other (internal.For_cuda_thread_xyz_direct.calculateDimensions dflt
              enclosed_calculateDimensions ArgumentId Dim data).threads
            = get_cuda_dim other (dflt.max (enclosed_calculateDimensions data)).threads
          ∧ get_cuda_dim other (internal.For_cuda_thread_xyz_direct.calculateDimensions
              dflt enclosed_calculateDimensions ArgumentId Dim data).min_threads
            = get_cuda_dim other
                (dflt.max (enclosed_calculateDimensions data)).min_threads)
      ∧ (internal.For_cuda_thread_xyz_direct.calculateDimensions dflt
          enclosed_calculateDimensions ArgumentId Dim data).blocks
        = (dflt.max (enclosed_calculateDimensions data)).blocks)
    ∧ (internal.For_cuda_block_xyz_loop.calculateDimensions dflt
          enclosed_calculateDimensions ArgumentId Dim data
        = (internal.For_cuda_block_xyz_loop.dims dflt Dim
            (to_int (segment_length ArgumentId data))).max
              (enclosed_calculateDimensions data)
      ∧ get_cuda_dim Dim (internal.For_cuda_block_xyz_loop.calculateDimensions dflt
          enclosed_calculateDimensions ArgumentId Dim data).blocks
        = max (segment_length ArgumentId data)
            (get_cuda_dim Dim (enclosed_calculateDimensions data).blocks)
      ∧ (∀ other : Fin 3, other ≠ Dim →
          get_cuda_dim other (internal.For_cuda_block_xyz_loop.calculateDimensions dflt
              enclosed_calculateDimensions ArgumentId Dim data).blocks
            = get_cuda_dim other (dflt.max (enclosed_calculateDimensions data)).blocks)
      ∧ (internal.For_cuda_block_xyz_loop.calculateDimensions dflt
          enclosed_calculateDimensions ArgumentId Dim data).threads
        = (dflt.max (enclosed_calculateDimensions data)).threads
      ∧ (internal.For_cuda_block_xyz_loop.calculateDimensions dflt
          enclosed_calculateDimensions ArgumentId Dim data).min_threads
        = (dflt.max (enclosed_calculateDimensions data)).min_threads) := by
  have hu := to_unsigned_to_int_of_lt _ hN
  refine ⟨⟨rfl, ?_, ?_, ?_, rfl⟩, ⟨rfl, ?_, ?_, rfl, rfl⟩⟩
  · simp only [internal.For_cuda_thread_xyz_direct.calculateDimensions,
      internal.For_cuda_thread_xyz_direct.dims, LaunchDims.max, get_cuda_dim_max,
      get_set_cuda_dim, hu]
  · simp only [internal.For_cuda_thread_xyz_direct.calculateDimensions,
      internal.For_cuda_thread_xyz_direct.dims, LaunchDims.max, get_cuda_dim_max,
      get_set_cuda_dim, hu]
  · intro other hne
    simp only [internal.For_cuda_thread_xyz_direct.calculateDimensions,
      internal.For_cuda_thread_xyz_direct.dims, LaunchDims.max, get_cuda_dim_max,
      get_set_cuda_dim_ne _ _ _ _ hne, and_self]
  · simp only [internal.For_cuda_block_xyz_loop.calculateDimensions,
      internal.For_cuda_block_xyz_loop.dims, LaunchDims.max, get_cuda_dim_max,
      get_set_cuda_dim, hu]
  · intro other hne
    simp only [internal.For_cuda_block_xyz_loop.calculateDimensions,
      internal.For_cuda_block_xyz_loop.dims, LaunchDims.max, get_cuda_dim_max,
      get_set_cuda_dim_ne _ _ _ _ hne]

/-- C6, amended, instance: a direct-mapped `For` along x over `[0, 10)` whose
enclosed statements require `7` threads along x and `20` along y: x becomes
`10`, y stays `20`. -/
theorem calculateDimensions_pointwise_max_witness :
    get_cuda_dim 0 (internal.For_cuda_thread_xyz_direct.calculateDimensions example_dims
        (fun _ => { example_dims with threads := ⟨7, 20, 1⟩ }) 0 0 example_data).threads
      = 10
    ∧ get_cuda_dim 1 (internal.For_cuda_thread_xyz_direct.calculateDimensions example_dims
        (fun _ => { example_dims with threads := ⟨7, 20, 1⟩ }) 0 0 example_data).threads
      = 20 :=
  have h := calculateDimensions_pointwise_max example_dims
    (fun _ => { example_dims with threads := ⟨7, 20, 1⟩ }) 0 0 example_data (by decide)
  ⟨h.1.2.1, (h.1.2.2.2.1 1 (by decide)).1⟩

/-- C6, as stated, fails: over a segment of `2^32 + 5` indices with enclosed
requirement `1` in every component, the direct-mapped `For` along x asks for
`5` threads and the grid-stride `For` along x for `5` blocks, not for
`max (2^32 + 5) 1`: `calculateDimensions` narrows the length to `int`. -/
theorem calculateDimensions_long_segment_narrowed :
    segment_length 0 (long_data 4294967301) = 4294967301
    ∧ get_cuda_dim 0 (internal.For_cuda_thread_xyz_direct.calculateDimensions example_dims
        (fun _ => example_dims) 0 0 (long_data 4294967301)).threads = 5
    ∧ get_cuda_dim 0 (internal.For_cuda_block_xyz_loop.calculateDimensions example_dims
        (fun _ => example_dims) 0 0 (long_data 4294967301)).blocks = 5
    ∧ get_cuda_dim 0 (internal.For_cuda_thread_xyz_direct.calculateDimensions example_dims
        (fun _ => example_dims) 0 0 (long_data 4294967301)).threads
      ≠ max (segment_length 0 (long_data 4294967301))
          (get_cuda_dim 0 example_dims.threads) := by
  have h1 : get_cuda_dim 0 (internal.For_cuda_thread_xyz_direct.calculateDimensions
      example_dims (fun _ => example_dims) 0 0 (long_data 4294967301)).threads = 5 := by
    simp only [internal.For_cuda_thread_xyz_direct.calculateDimensions,
      segment_length_long_data]
    decide
  refine ⟨segment_length_long_data 0 _, h1, ?_, ?_⟩
  · simp only [internal.For_cuda_block_xyz_loop.calculateDimensions,
      segment_length_long_data]
    decide
  · rw [h1, segment_length_long_data]
    decide

/-- C7, as stated, fails: the own requirement of the block-stride thread `For`
does not ask for `MinThreads` threads along `ThreadDim` in its `threads`
component, and that component depends on the segment length (for a length of
`2^32 + 5` it is the narrowed value `5`). -/
theorem thread_loop_dims_threads_not_MinThreads :
    ¬ (∀ (dflt : LaunchDims) (ThreadDim : Fin 3) (MinThreads N : Nat),
        get_cuda_dim ThreadDim
            (internal.For_cuda_thread_xyz_loop.dims dflt ThreadDim MinThreads
              (to_int N)).threads
          = MinThreads)
    ∧ ¬ (∀ (dflt : LaunchDims) (ThreadDim : Fin 3) (MinThreads N N2 : Nat),
        get_cuda_dim ThreadDim
            (internal.For_cuda_thread_xyz_loop.dims dflt ThreadDim MinThreads
              (to_int N)).threads
          = get_cuda_dim ThreadDim
            (internal.For_cuda_thread_xyz_loop.dims dflt ThreadDim MinThreads
              (to_int N2)).threads)
    ∧ get_cuda_dim 0
        (internal.For_cuda_thread_xyz_loop.dims example_dims 0 1 (to_int 10)).threads
        = 10
    ∧ get_cuda_dim 0
        (internal.For_cuda_thread_xyz_loop.dims example_dims 0 1
          (to_int (4294967301 : Nat))).threads
        = 5 := by
  refine ⟨fun h => ?_, fun h => ?_, by decide, by decide⟩
  · exact absurd (h example_dims 0 1 10) (by decide)
  · exact absurd (h example_dims 0 1 10 20) (by decide)

/-- C7, amended: the own requirement of the block-stride thread `For` has
`min_threads` along `ThreadDim` equal to `MinThreads`, whatever the segment
length `N`, and, for `N < 2^31`, `threads` along `ThreadDim` equal to `N`; the
direct-mapped `For` has, for `N < 2^31`, both `threads` and `min_threads` along
`ThreadDim` equal to `N`. -/
theorem thread_loop_dims_min_threads {σ : Type} (dflt : LaunchDims) (ThreadDim : Fin 3)
    (MinThreads N : Nat) (enclosed_calculateDimensions : LoopData σ → LaunchDims)
    (ArgumentId : Nat) (data : LoopData σ) :
    internal.For_cuda_thread_xyz_loop.calculateDimensions dflt
        enclosed_calculateDimensions ArgumentId ThreadDim MinThreads data
      = (internal.For_cuda_thread_xyz_loop.dims dflt ThreadDim MinThreads
          (to_int (segment_length ArgumentId data))).max (enclosed_calculateDimensions data)
    ∧ get_cuda_dim ThreadDim
        (internal.For_cuda_thread_xyz_loop.dims dflt ThreadDim MinThreads
          (to_int N)).min_threads
      = MinThreads
    ∧ (N < 2147483648 →
      get_cuda_dim ThreadDim
          (internal.For_cuda_thread_xyz_loop.dims dflt ThreadDim MinThreads
            (to_int N)).threads = N
      ∧ get_cuda_dim ThreadDim
          (internal.For_cuda_thread_xyz_direct.dims dflt ThreadDim (to_int N)).threads = N
      ∧ get_cuda_dim ThreadDim
          (internal.For_cuda_thread_xyz_direct.dims dflt ThreadDim (to_int N)).min_threads
        = N) := by
  refine ⟨rfl, ?_, ?_⟩
  · simp only [internal.For_cuda_thread_xyz_loop.dims, get_set_cuda_dim]
  · intro hN
    simp only [internal.For_cuda_thread_xyz_loop.dims,
      internal.For_cuda_thread_xyz_direct.dims, get_set_cuda_dim,
      to_unsigned_to_int_of_lt N hN, and_self]

/-- C7, amended, instance: over a segment of `10` indices with `MinThreads = 1`
the block-stride `For` has `threads` along x equal to `10`, and the
direct-mapped `For` has `min_threads` along x equal to `10`. -/
theorem thread_loop_dims_min_threads_witness :
    get_cuda_dim 0
        (internal.For_cuda_thread_xyz_loop.dims example_dims 0 1 (to_int 10)).threads = 10
    ∧ get_cuda_dim 0
        (internal.For_cuda_thread_xyz_direct.dims example_dims 0 (to_int 10)).min_threads
      = 10 :=
  have h := (thread_loop_dims_min_threads example_dims 0 1 10 (fun _ => example_dims) 0
    example_data).2.2 (by decide)
  ⟨h.1, h.2.2⟩

/-! ## `Teams`, `Threads`, `Lanes`, `Resources` -/

/-- C8: the four constructors of `Teams` and of `Threads` fill `value` with the
given entries and pad with `1`; `Resources(t, h)` stores exactly `teams = t`
and `threads = h`; in particular `Resources(Teams(4), Threads(32))` has
`teams.value = {4,1,1}` and `threads.value = {32,1,1}`. -/
theorem teams_threads_resources_constructors (i j k : Int) (t : Teams) (h : Threads) :
    ((Teams.ctor1 i).value = (i, 1, 1) ∧ (Teams.ctor2 i j).value = (i, j, 1)
        ∧ (Teams.ctor3 i j k).value = (i, j, k) ∧ Teams.ctor0.value = (1, 1, 1))
      ∧ ((Threads.ctor1 i).value = (i, 1, 1) ∧ (Threads.ctor2 i j).value = (i, j, 1)
        ∧ (Threads.ctor3 i j k).value = (i, j, k) ∧ Threads.ctor0.value = (1, 1, 1))
      ∧ ((Resources.ctor2 t h).teams = t ∧ (Resources.ctor2 t h).threads = h)
      ∧ ((Resources.ctor2 (Teams.ctor1 4) (Threads.ctor1 32)).teams.value = (4, 1, 1)
        ∧ (Resources.ctor2 (Teams.ctor1 4) (Threads.ctor1 32)).threads.value
          = (32, 1, 1)) :=
  ⟨⟨rfl, rfl, rfl, rfl⟩, ⟨rfl, rfl, rfl, rfl⟩, ⟨rfl, rfl⟩, ⟨rfl, rfl⟩⟩

/-- C9, as stated, fails: neither the default-constructed `Resources` nor
`Resources(Teams(), Threads())` has all values positive, since the lanes count
of both is `0`. -/
theorem default_resources_not_all_positive :
    ¬ Resources.ctor0.all_positive
      ∧ ¬ (Resources.ctor2 Teams.ctor0 Threads.ctor0).all_positive
      ∧ Resources.ctor0.lanes.value = 0 := by
  refine ⟨?_, ?_, rfl⟩ <;>
    simp [Resources.all_positive, Resources.ctor0, Resources.ctor2, Lanes.ctor0]

/-- C9, amended: in the default-constructed `Resources` and in
`Resources(Teams(), Threads())` each of the three teams entries and each of the
three threads entries is `1`, hence at least `1`, and the lanes count is `0`. -/
theorem default_resources_values (r : Resources)
    (hr : r = Resources.ctor0 ∨ r = Resources.ctor2 Teams.ctor0 Threads.ctor0) :
    (r.teams.value = (1, 1, 1) ∧ r.threads.value = (1, 1, 1) ∧ r.lanes.value = 0)
      ∧ (1 ≤ r.teams.value.1 ∧ 1 ≤ r.teams.value.2.1 ∧ 1 ≤ r.teams.value.2.2)
      ∧ (1 ≤ r.threads.value.1 ∧ 1 ≤ r.threads.value.2.1 ∧ 1 ≤ r.threads.value.2.2) := by
  rcases hr with rfl | rfl <;>
    simp [Resources.ctor0, Resources.ctor2, Teams.ctor0, Threads.ctor0, Lanes.ctor0]

/-- C9, amended, instance: the default-constructed `Resources`. -/
theorem default_resources_values_witness :
    Resources.ctor0.teams.value = (1, 1, 1) ∧ Resources.ctor0.threads.value = (1, 1, 1)
      ∧ Resources.ctor0.lanes.value = 0 :=
  (default_resources_values Resources.ctor0 (Or.inl rfl)).1

/-! ## `ForICount` -/

theorem foldl_icount_append (a p : Nat) (l : List Nat) :
    ∀ d : LoopData (List (Nat × Nat)),
      (l.foldl (fun d k =>
          append_offset_param a p (assign_param p k (assign_offset a k d))) d).bodies
        = d.bodies ++ l.map (fun i => (i, i)) := by
  induction l with
  | nil => intro d; simp
  | cons k l ih =>
    intro d
    rw [List.foldl_cons, ih]
    simp [append_offset_param, assign_offset, assign_param]

theorem foldl_for_append_fst (a p : Nat) (l : List Nat) :
    ∀ d : LoopData (List (Nat × Nat)),
      (l.foldl (fun d k => append_offset_param a p (assign_offset a k d)) d).bodies.map
          Prod.fst
        = d.bodies.map Prod.fst ++ l := by
  induction l with
  | nil => intro d; simp
  | cons k l ih =>
    intro d
    rw [List.foldl_cons, ih]
    simp [append_offset_param, assign_offset]

theorem icount_body_eq {σ : Type} (enclosed_stmts : LoopData σ → LoopData σ) (a p : Nat) :
    (fun (i : Nat) (d : LoopData σ) =>
        enclosed_stmts (assign_param p i (assign_offset a i d)))
      = (fun (i : Nat) (d : LoopData σ) =>
        (fun d2 : LoopData σ => enclosed_stmts (assign_param p (d2.offset_tuple a) d2))
          (assign_offset a i d)) := by
  funext i d
  simp only [assign_offset_offset]

theorem stride_loop_icount_fst (a p : Nat) (len : Int) (S : Nat) :
    ∀ (fuel i : Nat) (d1 d2 : LoopData (List (Nat × Nat))),
      d1.bodies.map Prod.fst = d2.bodies.map Prod.fst →
      (internal.stride_loop
          (fun i d => append_offset_param a p (assign_param p i (assign_offset a i d)))
          len S fuel i d1).map (fun d => d.bodies.map Prod.fst)
        = (internal.stride_loop (fun i d => append_offset_param a p (assign_offset a i d))
          len S fuel i d2).map (fun d => d.bodies.map Prod.fst) := by
  intro fuel
  induction fuel with
  | zero => intro i d1 d2 _; rfl
  | succ fuel ih =>
    intro i d1 d2 h
    unfold internal.stride_loop
    by_cases hi : i < to_unsigned len
    · rw [if_pos hi, if_pos hi]
      apply ih
      simp [append_offset_param, assign_offset, assign_param, h]
    · rw [if_neg hi, if_neg hi]
      simp [h]

theorem stride_loop_icount_pairs (a p : Nat) (len : Int) (S : Nat) :
    ∀ (fuel i : Nat) (d r : LoopData (List (Nat × Nat))),
      internal.stride_loop
          (fun i d => append_offset_param a p (assign_param p i (assign_offset a i d)))
          len S fuel i d = some r →
      ∃ offsets : List Nat, r.bodies = d.bodies ++ offsets.map (fun i => (i, i)) := by
  intro fuel
  induction fuel with
  | zero => intro i d r h; simp [internal.stride_loop] at h
  | succ fuel ih =>
    intro i d r h
    unfold internal.stride_loop at h
    by_cases hi : i < to_unsigned len
    · rw [if_pos hi] at h
      obtain ⟨offsets, ho⟩ := ih _ _ _ h
      refine ⟨i :: offsets, ?_⟩
      rw [ho]
      simp [append_offset_param, assign_offset, assign_param]
    · rw [if_neg hi] at h
      refine ⟨[], ?_⟩
      simp only [Option.some.injEq] at h
      simp [h]

/-- C10: every `ForICount` executor (sequential, direct-mapped, block-stride,
grid-stride) is the `For` executor of the same policy whose enclosed statements
are preceded by "param slot `ParamId` := offset of `ArgumentId`" (a
direct-mapped lane out of range writes the param slot and runs nothing); so a
body that records the pair (offset, param) at its start records `(i, i)` for
exactly the offsets `i`, in the same order, for which the `For` executor with
the same segment and hardware indices runs its body.  For the strided
executors this holds for every segment length, extent and amount of fuel; for
a segment length and an extent below `2^31` and enough fuel both return and
the offsets are `s, s + S, ...` below the length. -/
theorem foricount_param_equals_offset {σ : Type}
    (enclosed_stmts : LoopData σ → LoopData σ) (ArgumentId ParamId : Nat) (Dim : Fin 3)
    (regs : CudaRegs) (fuel : Nat) (data : LoopData σ)
    (logged : LoopData (List (Nat × Nat))) :
    -- sequential
    (internal.ForICount_seq_exec.exec enclosed_stmts ArgumentId ParamId data
        = internal.For_seq_exec.exec
            (fun d => enclosed_stmts (assign_param ParamId (d.offset_tuple ArgumentId) d))
            ArgumentId data
      ∧ (internal.ForICount_seq_exec.exec (append_offset_param ArgumentId ParamId)
            ArgumentId ParamId logged).bodies
        = logged.bodies
            ++ (List.range (segment_length ArgumentId logged)).map (fun i => (i, i))
      ∧ (internal.For_seq_exec.exec (append_offset_param ArgumentId ParamId)
            ArgumentId logged).bodies.map Prod.fst
        = logged.bodies.map Prod.fst ++ List.range (segment_length ArgumentId logged))
    -- direct-mapped
    ∧ (internal.ForICount_cuda_thread_xyz_direct.exec enclosed_stmts ArgumentId ParamId
          Dim regs data
        = (if get_cuda_dim Dim regs.threadIdx < segment_length ArgumentId data
          then internal.For_cuda_thread_xyz_direct.exec
            (fun d => enclosed_stmts (assign_param ParamId (d.offset_tuple ArgumentId) d))
            ArgumentId Dim regs data
          else assign_param ParamId (get_cuda_dim Dim regs.threadIdx)
            (internal.For_cuda_thread_xyz_direct.exec
              (fun d => enclosed_stmts
                (assign_param ParamId (d.offset_tuple ArgumentId) d))
              ArgumentId Dim regs data))
      ∧ (internal.ForICount_cuda_thread_xyz_direct.exec
            (append_offset_param ArgumentId ParamId) ArgumentId ParamId Dim regs
            logged).bodies
        = logged.bodies
            ++ (if get_cuda_dim Dim regs.threadIdx < segment_length ArgumentId logged
              then [(get_cuda_dim Dim regs.threadIdx, get_cuda_dim Dim regs.threadIdx)]
              else [])
      ∧ (internal.For_cuda_thread_xyz_direct.exec
            (append_offset_param ArgumentId ParamId) ArgumentId Dim regs
            logged).bodies.map Prod.fst
        = logged.bodies.map Prod.fst
            ++ (if get_cuda_dim Dim regs.threadIdx < segment_length ArgumentId logged
              then [get_cuda_dim Dim regs.threadIdx] else []))
    -- block-stride
    ∧ (internal.ForICount_cuda_thread_xyz_loop.exec enclosed_stmts ArgumentId ParamId
          Dim regs fuel data
        = internal.For_cuda_thread_xyz_loop.exec
            (fun d => enclosed_stmts (assign_param ParamId (d.offset_tuple ArgumentId) d))
            ArgumentId Dim regs fuel data
      ∧ (internal.ForICount_cuda_thread_xyz_loop.exec
            (append_offset_param ArgumentId ParamId) ArgumentId ParamId Dim regs fuel
            logged).map (fun d => d.bodies.map Prod.fst)
        = (internal.For_cuda_thread_xyz_loop.exec
            (append_offset_param ArgumentId ParamId) ArgumentId Dim regs fuel
            logged).map (fun d => d.bodies.map Prod.fst)
      ∧ (∀ r, internal.ForICount_cuda_thread_xyz_loop.exec
            (append_offset_param ArgumentId ParamId) ArgumentId ParamId Dim regs fuel
            logged = some r →
          ∃ offsets : List Nat, r.bodies = logged.bodies ++ offsets.map (fun i => (i, i)))
      ∧ (1 ≤ get_cuda_dim Dim regs.blockDim → get_cuda_dim Dim regs.blockDim < 2147483648 →
          segment_length ArgumentId logged < 2147483648 →
          segment_length ArgumentId logged < fuel →
          (internal.ForICount_cuda_thread_xyz_loop.exec
              (append_offset_param ArgumentId ParamId) ArgumentId ParamId Dim regs fuel
              logged).map (fun d => d.bodies)
            = some (logged.bodies
              ++ (strided_offsets (segment_length ArgumentId logged)
                  (get_cuda_dim Dim regs.blockDim)
                  (get_cuda_dim Dim regs.threadIdx)).map (fun i => (i, i)))
          ∧ (internal.For_cuda_thread_xyz_loop.exec
              (append_offset_param ArgumentId ParamId) ArgumentId Dim regs fuel
              logged).map (fun d => d.bodies.map Prod.fst)
            = some (logged.bodies.map Prod.fst
              ++ strided_offsets (segment_length ArgumentId logged)
                  (get_cuda_dim Dim regs.blockDim) (get_cuda_dim Dim regs.threadIdx))))
    -- grid-stride
    ∧ (internal.ForICount_cuda_block_xyz_loop.exec enclosed_stmts ArgumentId ParamId
          Dim regs fuel data
        = internal.For_cuda_block_xyz_loop.exec
            (fun d => enclosed_stmts (assign_param ParamId (d.offset_tuple ArgumentId) d))
            ArgumentId Dim regs fuel data
      ∧ (internal.ForICount_cuda_block_xyz_loop.exec
            (append_offset_param ArgumentId ParamId) ArgumentId ParamId Dim regs fuel
            logged).map (fun d => d.bodies.map Prod.fst)
        = (internal.For_cuda_block_xyz_loop.exec
            (append_offset_param ArgumentId ParamId) ArgumentId Dim regs fuel
            logged).map (fun d => d.bodies.map Prod.fst)
      ∧ (∀ r, internal.ForICount_cuda_block_xyz_loop.exec
            (append_offset_param ArgumentId ParamId) ArgumentId ParamId Dim regs fuel
            logged = some r →
          ∃ offsets : List Nat, r.bodies = logged.bodies ++ offsets.map (fun i => (i, i)))
      ∧ (1 ≤ get_cuda_dim Dim regs.gridDim → get_cuda_dim Dim regs.gridDim < 2147483648 →
          segment_length ArgumentId logged < 2147483648 →
          segment_length ArgumentId logged < fuel →
          (internal.ForICount_cuda_block_xyz_loop.exec
              (append_offset_param ArgumentId ParamId) ArgumentId ParamId Dim regs fuel
              logged).map (fun d => d.bodies)
            = some (logged.bodies
              ++ (strided_offsets (segment_length ArgumentId logged)
                  (get_cuda_dim Dim regs.gridDim)
                  (get_cuda_dim Dim regs.blockIdx)).map (fun i => (i, i)))
          ∧ (internal.For_cuda_block_xyz_loop.exec
              (append_offset_param ArgumentId ParamId) ArgumentId Dim regs fuel
              logged).map (fun d => d.bodies.map Prod.fst)
            = some (logged.bodies.map Prod.fst
              ++ strided_offsets (segment_length ArgumentId logged)
                  (get_cuda_dim Dim regs.gridDim) (get_cuda_dim Dim regs.blockIdx)))) := by
  refine ⟨⟨?_, ?_, ?_⟩, ⟨?_, ?_, ?_⟩, ⟨?_, ?_, ?_, ?_⟩, ⟨?_, ?_, ?_, ?_⟩⟩
  · simp only [internal.ForICount_seq_exec.exec, internal.For_seq_exec.exec,
      icount_body_eq]
  · simp only [internal.ForICount_seq_exec.exec]
    rw [internal.seq_loop_eq_foldl _ _ (segment_length ArgumentId logged) 0 logged
      (by omega), ← List.range_eq_range', foldl_icount_append]
  · simp only [internal.For_seq_exec.exec]
    rw [internal.seq_loop_eq_foldl _ _ (segment_length ArgumentId logged) 0 logged
      (by omega), ← List.range_eq_range', foldl_for_append_fst]
  · simp only [internal.ForICount_cuda_thread_xyz_direct.exec,
      internal.For_cuda_thread_xyz_direct.exec]
    split <;> simp [assign_offset_offset]
  · simp only [internal.ForICount_cuda_thread_xyz_direct.exec]
    split <;> simp [append_offset_param, assign_offset, assign_param]
  · simp only [internal.For_cuda_thread_xyz_direct.exec]
    split <;> simp [append_offset_param, assign_offset]
  · simp only [internal.ForICount_cuda_thread_xyz_loop.exec,
      internal.For_cuda_thread_xyz_loop.exec, icount_body_eq]
  · simp only [internal.ForICount_cuda_thread_xyz_loop.exec,
      internal.For_cuda_thread_xyz_loop.exec]
    exact stride_loop_icount_fst ArgumentId ParamId _ _ fuel _ logged logged rfl
  · intro r hr
    simp only [internal.ForICount_cuda_thread_xyz_loop.exec] at hr
    exact stride_loop_icount_pairs ArgumentId ParamId _ _ fuel _ logged r hr
  · intro hS hS2 hN hfuel
    constructor
    · simp only [internal.ForICount_cuda_thread_xyz_loop.exec]
      rw [internal.stride_loop_eq_foldl _ _ _ hS hN hS2 fuel _ logged (by omega)]
      simp only [Option.map_some']
      rw [foldl_icount_append]
    · simp only [internal.For_cuda_thread_xyz_loop.exec]
      rw [internal.stride_loop_eq_foldl _ _ _ hS hN hS2 fuel _ logged (by omega)]
      simp only [Option.map_some']
      rw [foldl_for_append_fst]
  · simp only [internal.ForICount_cuda_block_xyz_loop.exec,
      internal.For_cuda_block_xyz_loop.exec, icount_body_eq]
  · simp only [internal.ForICount_cuda_block_xyz_loop.exec,
      internal.For_cuda_block_xyz_loop.exec]
    exact stride_loop_icount_fst ArgumentId ParamId _ _ fuel _ logged logged rfl
  · intro r hr
    simp only [internal.ForICount_cuda_block_xyz_loop.exec] at hr
    exact stride_loop_icount_pairs ArgumentId ParamId _ _ fuel _ logged r hr
  · intro hS hS2 hN hfuel
    constructor
    · simp only [internal.ForICount_cuda_block_xyz_loop.exec]
      rw [internal.stride_loop_eq_foldl _ _ _ hS hN hS2 fuel _ logged (by omega)]
      simp only [Option.map_some']
      rw [foldl_icount_append]
    · simp only [internal.For_cuda_block_xyz_loop.exec]
      rw [internal.stride_loop_eq_foldl _ _ _ hS hN hS2 fuel _ logged (by omega)]
      simp only [Option.map_some']
      rw [foldl_for_append_fst]

/-- C10, instance: the block-stride `ForICount` over `[0, 10)` on the lane with
thread index `1` in a block of extent `4` records `(1,1), (5,5), (9,9)`, and
the sequential `ForICount` records `(0,0), ..., (9,9)`. -/
theorem foricount_param_equals_offset_witness :
    (internal.ForICount_cuda_thread_xyz_loop.exec (append_offset_param 0 0) 0 0 0
        (thread_lane 0 4 1) 11 example_pairs).map (fun d => d.bodies)
      = some [(1, 1), (5, 5), (9, 9)]
    ∧ (internal.ForICount_seq_exec.exec (append_offset_param 0 0) 0 0 example_pairs).bodies
      = [(0, 0), (1, 1), (2, 2), (3, 3), (4, 4), (5, 5), (6, 6), (7, 7), (8, 8), (9, 9)] :=
  have h := foricount_param_equals_offset (append_offset_param 0 0) 0 0 0
    (thread_lane 0 4 1) 11 example_pairs example_pairs
  ⟨(h.2.2.1.2.2.2 (by decide) (by decide) (by decide) (by decide)).1, h.1.2.1⟩

/-! ## A single lane of a strided `For` -/

theorem assign_offset_offset_ne {σ : Type} (a b i : Nat) (d : LoopData σ) (h : b ≠ a) :
    (assign_offset a i d).offset_tuple b = d.offset_tuple b := by
  simp [assign_offset, Function.update_noteq h]

theorem assign_param_param {σ : Type} (p i : Nat) (d : LoopData σ) :
    (assign_param p i d).param_tuple p = i := by
  simp [assign_param]

theorem assign_param_param_ne {σ : Type} (p q i : Nat) (d : LoopData σ) (h : q ≠ p) :
    (assign_param p i d).param_tuple q = d.param_tuple q := by
  simp [assign_param, Function.update_noteq h]

/-- C12: a lane of the direct-mapped `For` (or `ForICount`) whose hardware
index `i` is at least the segment length ends with the offset for `ArgumentId`
(and, for `ForICount`, the param slot `ParamId`) equal to `i`, every other
offset and param slot, the segments and the body memory as before, and the
enclosed statements not run; so the context is changed whenever the slot held
another value.  A lane of a strided `For` whose start index is at least the
segment length returns the context it was given. -/
theorem out_of_range_lane_frame {σ : Type}
    (enclosed_stmts : LoopData σ → LoopData σ) (ArgumentId ParamId : Nat) (Dim : Fin 3)
    (regs : CudaRegs) (fuel : Nat) (data : LoopData σ)
    (hthread : segment_length ArgumentId data ≤ get_cuda_dim Dim regs.threadIdx)
    (hblock : segment_length ArgumentId data ≤ get_cuda_dim Dim regs.blockIdx)
    (hfuel : 1 ≤ fuel) :
    -- direct-mapped `For`
    (internal.For_cuda_thread_xyz_direct.exec enclosed_stmts ArgumentId Dim regs data
        = assign_offset ArgumentId (get_cuda_dim Dim regs.threadIdx) data
      ∧ (internal.For_cuda_thread_xyz_direct.exec enclosed_stmts ArgumentId Dim regs
          data).offset_tuple ArgumentId = get_cuda_dim Dim regs.threadIdx
      ∧ (∀ b, b ≠ ArgumentId →
          (internal.For_cuda_thread_xyz_direct.exec enclosed_stmts ArgumentId Dim regs
            data).offset_tuple b = data.offset_tuple b)
      ∧ (internal.For_cuda_thread_xyz_direct.exec enclosed_stmts ArgumentId Dim regs
          data).param_tuple = data.param_tuple
      ∧ (internal.For_cuda_thread_xyz_direct.exec enclosed_stmts ArgumentId Dim regs
          data).segment_tuple = data.segment_tuple
      ∧ (internal.For_cuda_thread_xyz_direct.exec enclosed_stmts ArgumentId Dim regs
          data).bodies = data.bodies
      ∧ (data.offset_tuple ArgumentId ≠ get_cuda_dim Dim regs.threadIdx →
          internal.For_cuda_thread_xyz_direct.exec enclosed_stmts ArgumentId Dim regs data
            ≠ data))
    -- direct-mapped `ForICount`
    ∧ (internal.ForICount_cuda_thread_xyz_direct.exec enclosed_stmts ArgumentId ParamId
          Dim regs data
        = assign_param ParamId (get_cuda_dim Dim regs.threadIdx)
            (assign_offset ArgumentId (get_cuda_dim Dim regs.threadIdx) data)
      ∧ (internal.ForICount_cuda_thread_xyz_direct.exec enclosed_stmts ArgumentId ParamId
          Dim regs data).offset_tuple ArgumentId = get_cuda_dim Dim regs.threadIdx
      ∧ (internal.ForICount_cuda_thread_xyz_direct.exec enclosed_stmts ArgumentId ParamId
          Dim regs data).param_tuple ParamId = get_cuda_dim Dim regs.threadIdx
      ∧ (∀ b, b ≠ ArgumentId →
          (internal.ForICount_cuda_thread_xyz_direct.exec enclosed_stmts ArgumentId
            ParamId Dim regs data).offset_tuple b = data.offset_tuple b)
      ∧ (∀ q, q ≠ ParamId →
          (internal.ForICount_cuda_thread_xyz_direct.exec enclosed_stmts ArgumentId
            ParamId Dim regs data).param_tuple q = data.param_tuple q)
      ∧ (internal.ForICount_cuda_thread_xyz_direct.exec enclosed_stmts ArgumentId ParamId
          Dim regs data).segment_tuple = data.segment_tuple
      ∧ (internal.ForICount_cuda_thread_xyz_direct.exec enclosed_stmts ArgumentId ParamId
          Dim regs data).bodies = data.bodies
      ∧ (data.offset_tuple ArgumentId ≠ get_cuda_dim Dim regs.threadIdx
            ∨ data.param_tuple ParamId ≠ get_cuda_dim Dim regs.threadIdx →
          internal.ForICount_cuda_thread_xyz_direct.exec enclosed_stmts ArgumentId ParamId
            Dim regs data ≠ data))
    -- strided `For`
    ∧ internal.For_cuda_thread_xyz_loop.exec enclosed_stmts ArgumentId Dim regs fuel data
        = some data
    ∧ internal.For_cuda_block_xyz_loop.exec enclosed_stmts ArgumentId Dim regs fuel data
        = some data := by
  have hfor : internal.For_cuda_thread_xyz_direct.exec enclosed_stmts ArgumentId Dim regs
      data = assign_offset ArgumentId (get_cuda_dim Dim regs.threadIdx) data := by
    simp only [internal.For_cuda_thread_xyz_direct.exec]
    rw [if_neg (by omega)]
  have hicount : internal.ForICount_cuda_thread_xyz_direct.exec enclosed_stmts ArgumentId
      ParamId Dim regs data
        = assign_param ParamId (get_cuda_dim Dim regs.threadIdx)
            (assign_offset ArgumentId (get_cuda_dim Dim regs.threadIdx) data) := by
    simp only [internal.ForICount_cuda_thread_xyz_direct.exec]
    rw [if_neg (by omega)]
  obtain ⟨f, rfl⟩ : ∃ f, fuel = f + 1 := ⟨fuel - 1, by omega⟩
  refine ⟨⟨hfor, ?_, ?_, ?_, ?_, ?_, ?_⟩, ⟨hicount, ?_, ?_, ?_, ?_, ?_, ?_, ?_⟩, ?_, ?_⟩
  · rw [hfor, assign_offset_offset]
  · intro b hb
    rw [hfor, assign_offset_offset_ne _ _ _ _ hb]
  · rw [hfor]; rfl
  · rw [hfor]; rfl
  · rw [hfor]; rfl
  · intro hne heq
    apply hne
    have := congrArg (fun d => d.offset_tuple ArgumentId) heq
    simp only [hfor, assign_offset_offset] at this
    exact this.symm
  · rw [hicount]
    exact assign_offset_offset _ _ _
  · rw [hicount, assign_param_param]
  · intro b hb
    rw [hicount]
    exact assign_offset_offset_ne _ _ _ _ hb
  · intro q hq
    rw [hicount, assign_param_param_ne _ _ _ _ hq]
    rfl
  · rw [hicount]; rfl
  · rw [hicount]; rfl
  · intro hne heq
    have h1 := congrArg (fun d => d.offset_tuple ArgumentId) heq
    have h2 := congrArg (fun d => d.param_tuple ParamId) heq
    simp only [hicount, assign_param_param] at h2
    rw [hicount] at h1
    have h1' : get_cuda_dim Dim regs.threadIdx = data.offset_tuple ArgumentId :=
      (assign_offset_offset ArgumentId (get_cuda_dim Dim regs.threadIdx) data).symm.trans h1
    rcases hne with h | h
    · exact h h1'.symm
    · exact h h2.symm
  · have hle := to_unsigned_to_int_le (segment_length ArgumentId data)
    simp only [internal.For_cuda_thread_xyz_loop.exec, internal.stride_loop]
    rw [if_neg (by omega)]
  · have hle := to_unsigned_to_int_le (segment_length ArgumentId data)
    simp only [internal.For_cuda_block_xyz_loop.exec, internal.stride_loop]
    rw [if_neg (by omega)]

/-- C12, instance: over `[0, 10)` the lane with index `12` of the direct-mapped
`For` ends with offset `12`, and the same lane of the block-stride `For`
returns the context unchanged. -/
theorem out_of_range_lane_frame_witness :
    (internal.For_cuda_thread_xyz_direct.exec (append_offset 0) 0 0 (strided_lane 0 4 12)
        example_data).offset_tuple 0 = 12
    ∧ internal.For_cuda_thread_xyz_loop.exec (append_offset 0) 0 0 (strided_lane 0 4 12) 1
        example_data = some example_data :=
  have h := out_of_range_lane_frame (append_offset 0) 0 0 0 (strided_lane 0 4 12) 1
    example_data (by decide) (by decide) (by decide)
  ⟨h.1.2.1, h.2.2.1⟩

/-! ## Block-stride against direct-mapped -/

theorem radix_bound (n m a b : Int) (ha : 0 ≤ a) (han : a < n) (hb : 0 ≤ b) (hbm : b < m) :
    0 ≤ a + n * b ∧ a + n * b < n * m := by
  have hn : 0 ≤ n := by omega
  have h1 : 0 ≤ n * b := Int.mul_nonneg hn hb
  have h2 : n * b ≤ n * (m - 1) := Int.mul_le_mul_of_nonneg_left (by omega) hn
  have h3 : n * (m - 1) = n * m - n := by ring
  constructor
  · omega
  · omega

theorem radix_inj (n a b a2 b2 : Int) (ha : 0 ≤ a) (han : a < n) (ha2 : 0 ≤ a2)
    (ha2n : a2 < n) (h : a + n * b = a2 + n * b2) : a = a2 ∧ b = b2 := by
  have e1 : (a + n * b) % n = a := by
    rw [Int.add_mul_emod_self_left, Int.emod_eq_of_lt ha han]
  have e2 : (a2 + n * b2) % n = a2 := by
    rw [Int.add_mul_emod_self_left, Int.emod_eq_of_lt ha2 ha2n]
  have haa : a = a2 := by rw [← e1, ← e2, h]
  subst haa
  have hmul : n * b = n * b2 := by omega
  exact ⟨rfl, Int.eq_of_mul_eq_mul_left (by omega) hmul⟩

theorem PrivateMemoryImpl.call_host (N Nx Ny Nz : Nat) (i tx ty tz : Int)
    (hi : 0 ≤ i ∧ i < N) (htx : 0 ≤ tx ∧ tx < Nx) (hty : 0 ≤ ty ∧ ty < Ny)
    (htz : 0 ≤ tz ∧ tz < Nz) (hsize : N * Nx * Ny * Nz < 2147483648) :
    PrivateMemoryImpl.call false N Nx Ny i tx ty tz
        = i + (N : Int) * (tx + (Nx : Int) * (ty + (Ny : Int) * tz))
      ∧ 0 ≤ i + (N : Int) * (tx + (Nx : Int) * (ty + (Ny : Int) * tz))
      ∧ i + (N : Int) * (tx + (Nx : Int) * (ty + (Ny : Int) * tz))
          < ((N * Nx * Ny * Nz : Nat) : Int) := by
  have b1 := radix_bound Ny Nz ty tz hty.1 hty.2 htz.1 htz.2
  have b2 := radix_bound Nx (Ny * Nz) tx (ty + Ny * tz) htx.1 htx.2 b1.1 b1.2
  have b3 := radix_bound N (Nx * (Ny * Nz)) i (tx + Nx * (ty + Ny * tz)) hi.1 hi.2
    b2.1 b2.2
  have hcast : ((N * Nx * Ny * Nz : Nat) : Int)
      = (N : Int) * ((Nx : Int) * ((Ny : Int) * (Nz : Int))) := by
    push_cast
    ring
  have hsize2 : ((N * Nx * Ny * Nz : Nat) : Int) < 2147483648 := by exact_mod_cast hsize
  have hm : 0 ≤ (N : Int) * (tx + (Nx : Int) * (ty + (Ny : Int) * tz)) :=
    Int.mul_nonneg (by omega) b2.1
  have hsum : (N : Int) * tx + N * Nx * ty + N * Nx * Ny * tz
      = (N : Int) * (tx + (Nx : Int) * (ty + (Ny : Int) * tz)) := by ring
  rw [hcast] at hsize2 ⊢
  refine ⟨?_, b3.1, b3.2⟩
  simp only [PrivateMemoryImpl.call, Bool.false_eq_true, if_false, hsum]
  generalize (N : Int) * (tx + (Nx : Int) * (ty + (Ny : Int) * tz)) = m at b3 hm ⊢
  generalize (N : Int) * ((Nx : Int) * ((Ny : Int) * (Nz : Int))) = sz at b3 hsize2
  have h0 := hi.1
  unfold to_int
  omega

/-- C14, amended: on the host path, when the array size `N*Nx*Ny*Nz` is below
`2^31`, `operator()(i, tx, ty, tz)` addresses position
`i + N*tx + N*Nx*ty + N*Nx*Ny*tz`; for `0 ≤ i < N`, `0 ≤ tx < Nx`,
`0 ≤ ty < Ny`, `0 ≤ tz < Nz` this position lies in `[0, N*Nx*Ny*Nz)`, the
backing array, and two different tuples in these ranges address different
positions. -/
theorem private_memory_position_in_bounds_distinct (N Nx Ny Nz : Nat)
    (i tx ty tz i2 tx2 ty2 tz2 : Int)
    (hsize : N * Nx * Ny * Nz < 2147483648)
    (hi : 0 ≤ i ∧ i < N) (htx : 0 ≤ tx ∧ tx < Nx) (hty : 0 ≤ ty ∧ ty < Ny)
    (htz : 0 ≤ tz ∧ tz < Nz)
    (hi2 : 0 ≤ i2 ∧ i2 < N) (htx2 : 0 ≤ tx2 ∧ tx2 < Nx) (hty2 : 0 ≤ ty2 ∧ ty2 < Ny)
    (htz2 : 0 ≤ tz2 ∧ tz2 < Nz) :
    PrivateMemoryImpl.call false N Nx Ny i tx ty tz
        = i + N * tx + N * Nx * ty + N * Nx * Ny * tz
      ∧ 0 ≤ PrivateMemoryImpl.call false N Nx Ny i tx ty tz
      ∧ PrivateMemoryImpl.call false N Nx Ny i tx ty tz
          < (PrivateMemoryImpl.Array_size false N Nx Ny Nz : Int)
      ∧ ((i, tx, ty, tz) ≠ (i2, tx2, ty2, tz2) →
          PrivateMemoryImpl.call false N Nx Ny i tx ty tz
            ≠ PrivateMemoryImpl.call false N Nx Ny i2 tx2 ty2 tz2) := by
  have c1 := PrivateMemoryImpl.call_host N Nx Ny Nz i tx ty tz hi htx hty htz hsize
  have c2 := PrivateMemoryImpl.call_host N Nx Ny Nz i2 tx2 ty2 tz2 hi2 htx2 hty2 htz2 hsize
  have hsz : PrivateMemoryImpl.Array_size false N Nx Ny Nz = N * Nx * Ny * Nz := by
    simp only [PrivateMemoryImpl.Array_size, Bool.false_eq_true, if_false]
  refine ⟨?_, ?_, ?_, ?_⟩
  · rw [c1.1]
    ring
  · rw [c1.1]
    exact c1.2.1
  · rw [c1.1, hsz]
    exact c1.2.2
  · intro hne heq
    apply hne
    rw [c1.1, c2.1] at heq
    obtain ⟨e1, r1⟩ := radix_inj N i _ i2 _ hi.1 hi.2 hi2.1 hi2.2 heq
    obtain ⟨e2, r2⟩ := radix_inj Nx tx _ tx2 _ htx.1 htx.2 htx2.1 htx2.2 r1
    obtain ⟨e3, e4⟩ := radix_inj Ny ty _ ty2 _ hty.1 hty.2 hty2.1 hty2.2 r2
    rw [e1, e2, e3, e4]

/-- C14, amended, instance: with `N = 8` and the `ThreadExclusive` defaults
`Nx = 16, Ny = 16, Nz = 4`, the tuples `(3, 5, 2, 1)` and `(3, 5, 2, 0)` address
two different positions, the first one `2347`, below the array size `8192`. -/
theorem private_memory_position_in_bounds_distinct_witness :
    PrivateMemoryImpl.call false 8 16 16 3 5 2 1 = 2347
      ∧ PrivateMemoryImpl.call false 8 16 16 3 5 2 1
          < (PrivateMemoryImpl.Array_size false 8 16 16 4 : Int)
      ∧ PrivateMemoryImpl.call false 8 16 16 3 5 2 1
          ≠ PrivateMemoryImpl.call false 8 16 16 3 5 2 0 :=
  have h := private_memory_position_in_bounds_distinct 8 16 16 4 3 5 2 1 3 5 2 0
    (by decide) (by decide) (by decide) (by decide) (by decide) (by decide) (by decide)
    (by decide) (by decide)
  ⟨h.1, h.2.2.1, h.2.2.2 (by decide)⟩

/-- C14, as stated, fails: with `N = Nx = 65536`, `Ny = 2`, `Nz = 1` (an array
of `2^33` elements) the in-range tuple `(0, 32768, 0, 0)` addresses position
`-2^31`, outside the array, and the two in-range tuples `(0, 0, 1, 0)` and
`(0, 0, 0, 0)` address the same position `0`: the sum is narrowed to
`const int offset`. -/
theorem private_memory_position_narrowed :
    PrivateMemoryImpl.Array_size false 65536 65536 2 1 = 8589934592
    ∧ PrivateMemoryImpl.call false 65536 65536 2 0 32768 0 0 = -2147483648
    ∧ ¬ (0 ≤ PrivateMemoryImpl.call false 65536 65536 2 0 32768 0 0)
    ∧ ((0, 0, 1, 0) ≠ ((0, 0, 0, 0) : Int × Int × Int × Int)
      ∧ PrivateMemoryImpl.call false 65536 65536 2 0 0 1 0
        = PrivateMemoryImpl.call false 65536 65536 2 0 0 0 0) := by
  decide

end RAJA
